import Mathlib

/-!
# SciMuse multi-stage orchestration — verification development

Shallow embedding of the SciMuse orchestration core:

* `src/schema.py` — the typed records exchanged between stages
  (`PlannerOutput`, `ReasonerOutput`, `ReviewerOutput`, `AgentDecision`);
* `src/agents/planner_agent.py` — `PlannerAgent.plan` and `_clean_json_output`;
* `src/agents/reasoner_agent.py` — `ReasonerAgent.run`;
* `src/agents/reviewer_agent.py` — `ReviewerAgent.review`;
* `src/agents/retriever_agent.py` — `RetrieverAgent.run`;
* `src/main.py` (`run_chat_pipeline`) and `src/app.py` (`chat_pipeline`) —
  the Retrieve → {Reason ⇄ Review} orchestration loop.

Modelling conventions:

* External, fallible calls (the LLM generation capability, `json.loads`,
  the smolagents `CodeAgent.run` call inside the retriever) are inputs:
  a generation outcome is `Except String String` (either the response
  content or the text of the raised exception), and `json.loads` is an
  oracle `String → Except String JVal` (either the decoded JSON value or
  the `JSONDecodeError` message).
* Python exceptions are the `Except String` monad; a `try/except` block
  is `pyCatch`.  In the planner and reasoner the inner
  `except json.JSONDecodeError` is the `match` on the `loads` result:
  a `JSONDecodeError` can only arise from `json.loads` itself.
* Scores are exact rationals (`Rat`); no claim under study depends on
  floating-point rounding, and the orchestrator never computes with the
  score.  `float(...)` applied to a decoded JSON value is `pyFloat`;
  the numeric-string forms accepted by Python's `float` beyond optional
  sign / digits / decimal point (exponents, `inf`, `nan`, underscores)
  are not modelled — no claim depends on them.
* pydantic v2 validation of constructor arguments is the `asStr` /
  `asListStr` / `asBool` / `asOptStr` checks; lax-mode coercions beyond
  exact JSON types are not modelled — no claim depends on them.
-/

/-! ## JSON values (the result of `json.loads`) -/

/-- A decoded JSON value, as returned by Python's `json.loads`. -/
inductive JVal where
  | null
  | bool (b : Bool)
  | num (q : Rat)
  | str (s : String)
  | arr (xs : List JVal)
  | obj (fields : List (String × JVal))
deriving Repr, BEq

/-- Python `dict.get(k, d)` on a decoded JSON object: the value of the
first binding of key `k`, or the default `d` when the key is absent. -/
def jget (fields : List (String × JVal)) (k : String) (d : JVal) : JVal :=
  match fields.find? (fun kv => kv.1 == k) with
  | some kv => kv.2
  | none => d

/-- Key lookup without a default (used by the schema-validity checker). -/
def jfield (fields : List (String × JVal)) (k : String) : Option JVal :=
  (fields.find? (fun kv => kv.1 == k)).map (fun kv => kv.2)

/-! ## Python string primitives

`str.strip` / `str.startswith` / `str.endswith` are modelled on the
character list so that every definition evaluates inside the kernel. -/

/-- Python `s.strip()`: remove leading and trailing whitespace. -/
def pyStrip (s : String) : String :=
  ⟨((s.data.dropWhile Char.isWhitespace).reverse.dropWhile
      Char.isWhitespace).reverse⟩

/-- Python `s.startswith(p)`. -/
def pyStartsWith (s p : String) : Bool :=
  p.data.isPrefixOf s.data

/-- Python `s.endswith(p)`. -/
def pyEndsWith (s p : String) : Bool :=
  p.data.isSuffixOf s.data

/-! ## Python exception plumbing -/

instance {ε α : Type} [DecidableEq ε] [DecidableEq α] :
    DecidableEq (Except ε α) := fun a b =>
  match a, b with
  | .error e, .error f =>
      if h : e = f then .isTrue (by rw [h])
      else .isFalse (fun hc => h (Except.error.inj hc))
  | .error _, .ok _ => .isFalse (fun hc => Except.noConfusion hc)
  | .ok _, .error _ => .isFalse (fun hc => Except.noConfusion hc)
  | .ok x, .ok y =>
      if h : x = y then .isTrue (by rw [h])
      else .isFalse (fun hc => h (Except.ok.inj hc))

/-- A Python `try: body except Exception as e: return handler(e)` block:
an escaping exception is converted into the handler's value, so the
wrapped computation always delivers a value. -/
def pyCatch {α : Type} (body : Except String α) (handler : String → α) :
    Except String α :=
  match body with
  | .error e => .ok (handler e)
  | .ok a => .ok a

/-- Python truthiness of an `Optional[str]` value: `None` and the empty
string are falsy, every other string is truthy.  Used for
`if review.feedback_for_retriever:` and `if feedback:`. -/
def pyTruthy : Option String → Bool
  | none => false
  | some s => !s.isEmpty

/-! ## `float(...)` on decoded JSON values -/

/-- Numeric value of a digit run (caller checks the digits). -/
def digitsVal (cs : List Char) : Nat :=
  cs.foldl (fun n c => n * 10 + (c.toNat - 48)) 0

/-- Decimal literal without sign: `"12"`, `"12.5"`, `".5"`, `"12."`.
`none` when the characters are not of this shape. -/
def decimalCore (cs : List Char) : Option Rat :=
  let intPart := cs.takeWhile (fun c => c ≠ '.')
  match cs.dropWhile (fun c => c ≠ '.') with
  | [] =>
      if intPart ≠ [] ∧ intPart.all Char.isDigit then
        some ((digitsVal intPart : Nat) : Rat)
      else none
  | '.' :: frac =>
      if (intPart ≠ [] ∨ frac ≠ []) ∧ intPart.all Char.isDigit ∧
          frac.all Char.isDigit then
        some (((digitsVal intPart : Nat) : Rat) +
          ((digitsVal frac : Nat) : Rat) / ((10 : Rat) ^ frac.length))
      else none
  | _ => none

/-- Python `float(s)` on a string: strips whitespace, optional sign,
then a decimal literal. -/
def strToRat? (s : String) : Option Rat :=
  match (pyStrip s).data with
  | '-' :: rest => (decimalCore rest).map (fun q => -q)
  | '+' :: rest => decimalCore rest
  | cs => decimalCore cs

/-- Python `float(v)` on a decoded JSON value: numbers pass through,
booleans become `1`/`0`, numeric strings are parsed (`ValueError`
otherwise), and `null`/arrays/objects raise a `TypeError`. -/
def pyFloat : JVal → Except String Rat
  | .num q => .ok q
  | .bool b => .ok (if b then 1 else 0)
  | .str s =>
      match strToRat? s with
      | some q => .ok q
      | none => .error ("ValueError: could not convert string to float: " ++ s)
  | .null => .error "TypeError: float() argument must not be None"
  | .arr _ => .error "TypeError: float() argument must not be a list"
  | .obj _ => .error "TypeError: float() argument must not be a dict"

/-! ## Typed records (`src/schema.py`) -/

/-- Model of `schema.AgentDecision`: the reviewer's binary verdict. -/
inductive AgentDecision where
  | ACCEPT
  | REJECT
deriving Repr, DecidableEq

/-- Model of `schema.PlannerOutput`. -/
structure PlannerOutput where
  reasoning : String
  search_queries : List String
  need_visual_understanding : Bool
deriving Repr, DecidableEq

/-- Model of `schema.ReasonerOutput`. -/
structure ReasonerOutput where
  draft_answer : String
  citations : List String
  reasoning_trace : String
deriving Repr, DecidableEq

/-- Model of `schema.ReviewerOutput`. -/
structure ReviewerOutput where
  confidence_score : Rat
  decision : AgentDecision
  critique : Option String
  feedback_for_retriever : Option String
deriving Repr, DecidableEq

/-- Python `AgentDecision(v)`: enum lookup by value; any value other
than the strings `"ACCEPT"` / `"REJECT"` raises a `ValueError`. -/
def pyAgentDecision : JVal → Except String AgentDecision
  | .str s =>
      if s = "ACCEPT" then .ok .ACCEPT
      else if s = "REJECT" then .ok .REJECT
      else .error ("ValueError: " ++ s ++ " is not a valid AgentDecision")
  | _ => .error "ValueError: not a valid AgentDecision"

/-! ## pydantic field validation -/

/-- pydantic validation of a `str` field. -/
def asStr : JVal → Except String String
  | .str s => .ok s
  | _ => .error "ValidationError: str expected"

/-- pydantic validation of an `Optional[str]` field. -/
def asOptStr : JVal → Except String (Option String)
  | .null => .ok none
  | .str s => .ok (some s)
  | _ => .error "ValidationError: str or None expected"

/-- pydantic validation of a `bool` field. -/
def asBool : JVal → Except String Bool
  | .bool b => .ok b
  | _ => .error "ValidationError: bool expected"

/-- pydantic validation of a `List[str]` field. -/
def asListStr : JVal → Except String (List String) :=
  fun v =>
    match v with
    | .arr xs => xs.foldr (fun x acc => do
        let s ← asStr x
        let rest ← acc
        pure (s :: rest)) (pure [])
    | _ => .error "ValidationError: list of str expected"

/-! ## Structured-output codec: `_clean_json_output` -/

/-- Model of `_clean_json_output` (identical in the planner, reasoner and
reviewer agents): strip whitespace, drop a leading ```` ```json ```` or
```` ``` ```` marker and a trailing ```` ``` ```` marker, strip again. -/
def cleanJsonOutput (raw : String) : String :=
  let r0 := pyStrip raw
  let r1 := if pyStartsWith r0 "```json" then r0.drop 7 else r0
  let r2 := if pyStartsWith r1 "```" then r1.drop 3 else r1
  let r3 := if pyEndsWith r2 "```" then r2.dropRight 3 else r2
  pyStrip r3

/-! ## Stage translations

Each stage takes the outcome of its external generation call
(`gen : Except String String`, content or raised-exception text) and
the `json.loads` oracle, and returns `Except String <record>`: an
`.error` would mean an exception escaped the stage boundary. -/

namespace PlannerAgent

/-- Model of `PlannerAgent.plan` (src/agents/planner_agent.py, lines 74–110).
The inner `except json.JSONDecodeError` is the `match` on `loads`;
every other exception (absent `.get`, pydantic validation, capability
failure) falls to the outer handler. -/
def plan (gen : Except String String) (loads : String → Except String JVal)
    (user_query : String) : Except String PlannerOutput :=
  pyCatch
    (do
      let content ← gen
      let cleaned := cleanJsonOutput content
      match loads cleaned with
      | .error _ =>
          pure { reasoning := "JSON parsing failed, using original query.",
                 search_queries := [user_query],
                 need_visual_understanding := false }
      | .ok data => do
          let fields ←
            match data with
            | .obj fs => pure fs
            | _ => Except.error "AttributeError: object has no attribute get"
          let reasoning ← asStr (jget fields "reasoning"
            (.str "No reasoning provided."))
          let queries ← asListStr (jget fields "search_queries"
            (.arr [.str user_query]))
          let needVisual ← asBool (jget fields "need_visual_understanding"
            (.bool false))
          pure { reasoning := reasoning,
                 search_queries := queries,
                 need_visual_understanding := needVisual })
    (fun e =>
      { reasoning := "System error: " ++ e,
        search_queries := [user_query],
        need_visual_understanding := false })

end PlannerAgent

namespace ReasonerAgent

/-- Model of `ReasonerAgent.run` (src/agents/reasoner_agent.py): on JSON parse
failure the raw content becomes the draft answer; on any other failure
the error text is embedded into a degraded draft. -/
def run (gen : Except String String)
    (loads : String → Except String JVal) : Except String ReasonerOutput :=
  pyCatch
    (do
      let content ← gen
      let cleaned := cleanJsonOutput content
      match loads cleaned with
      | .error _ =>
          pure { draft_answer := content,
                 citations := [],
                 reasoning_trace := "JSON Parse Error" }
      | .ok data => do
          let fields ←
            match data with
            | .obj fs => pure fs
            | _ => Except.error "AttributeError: object has no attribute get"
          let trace ← asStr (jget fields "reasoning_trace"
            (.str "No trace provided."))
          let answer ← asStr (jget fields "draft_answer"
            (.str "No answer provided."))
          let citations ← asListStr (jget fields "citations" (.arr []))
          pure { draft_answer := answer,
                 citations := citations,
                 reasoning_trace := trace })
    (fun e =>
      { draft_answer := "An error occurred while generating the answer: " ++ e,
        citations := [],
        reasoning_trace := "System Error" })

end ReasonerAgent

namespace ReviewerAgent

/-- The reviewer's conservative fallback for an escaping exception with
text `e` (src/agents/reviewer_agent.py, lines 101–109). -/
def fallbackVerdict (e : String) : ReviewerOutput :=
  { confidence_score := 0,
    decision := .REJECT,
    critique := some ("System error during review: " ++ e),
    feedback_for_retriever := some "System error, please retry aggregation." }

/-- Model of `ReviewerAgent.review` (src/agents/reviewer_agent.py, lines 83–109).
There is a single outer `try/except`: a `json.loads` failure, a bad
`float(...)`, a bad `AgentDecision(...)` and a pydantic validation
error all reach the same conservative fallback.  Argument evaluation
order follows the Python constructor call: `confidence_score` first,
then `decision`, `critique`, `feedback_for_retriever`. -/
def review (gen : Except String String)
    (loads : String → Except String JVal) : Except String ReviewerOutput :=
  pyCatch
    (do
      let content ← gen
      let cleaned := cleanJsonOutput content
      let data ← loads cleaned
      let fields ←
        match data with
        | .obj fs => pure fs
        | _ => Except.error "AttributeError: object has no attribute get"
      let score ← pyFloat (jget fields "confidence_score" (.num 0))
      let decision ← pyAgentDecision (jget fields "decision" (.str "REJECT"))
      let critique ← asOptStr (jget fields "critique"
        (.str "No critique provided."))
      let feedback ← asOptStr (jget fields "feedback_for_retriever" .null)
      pure { confidence_score := score,
             decision := decision,
             critique := critique,
             feedback_for_retriever := feedback })
    fallbackVerdict

end ReviewerAgent

namespace RetrieverAgent

/-- Model of `RetrieverAgent.run` (src/agents/retriever_agent.py): the external
`CodeAgent.run` outcome is passed in; an exception becomes the literal
`"Retriever failed: <error>"` text block. -/
def run (agentResult : Except String String) : Except String String :=
  pyCatch agentResult (fun e => "Retriever failed: " ++ e)

end RetrieverAgent

/-! ## The orchestration loop (src/main.py `run_chat_pipeline`,
src/app.py `chat_pipeline`)

The stages never raise (see `C2_stages_never_raise` below), so the
orchestrator is modelled over record-level behaviours of the external
capabilities.  `reason` and `review` take the attempt index to allow an
arbitrary (adversarial, non-deterministic) stream of stage outputs;
`retrieve` takes a global call counter for the same reason.  The review
capability receives the original `user_query` and the current draft,
exactly as `reviewer.review(user_query, draft_output)` does. -/

/-- Behaviours of the external stage capabilities, as seen by the
orchestration loop. -/
structure Capabilities where
  /-- Outcome of `reasoner.run(query=effective_query, retriever_result=ctx, vl_results=[])`
  at a given attempt index. -/
  reason : Nat → String → String → ReasonerOutput
  /-- Outcome of `reviewer.review(user_query, draft_output)` at a given attempt index. -/
  review : Nat → String → ReasonerOutput → ReviewerOutput
  /-- Outcome of `retriever.run(query)` at a given global call index. -/
  retrieve : Nat → String → String

/-- One Reason+Review round, as observed by the loop: the attempt
index, the `aggregated_context` snapshot passed to the reasoner, the
effective query (original query plus optional feedback suffix), the
draft produced, and the verdict returned. -/
structure Attempt where
  index : Nat
  evidence : String
  effective_query : String
  draft : ReasonerOutput
  verdict : ReviewerOutput
deriving Repr, DecidableEq

/-- Result of the Reason ⇄ Review loop.  `supp_calls` records each
supplemental retrieval actually dispatched as
(attempt index, query string), in order. -/
structure LoopOut where
  accepted : Bool
  final_answer : Option ReasonerOutput
  attempts : List Attempt
  supp_calls : List (Nat × String)
deriving Repr, DecidableEq

/-- The `while current_attempt <= max_retries` loop shared by
`run_chat_pipeline` (src/main.py, lines 92–138) and `chat_pipeline`
(src/app.py, lines 117–157).  `fuel` is the number of loop iterations
still allowed (`max_retries + 1 - current_attempt`), so the `while`
condition `current_attempt <= max_retries` is exactly `fuel > 0`.
The two files differ only in the feedback-suffix format and the
supplemental-evidence label, passed in as `fmtFeedback` / `suppLabel`. -/
def reviewLoop (caps : Capabilities) (fmtFeedback : String → String)
    (suppLabel : String) (user_query : String) :
    Nat → Nat → Nat → Option String → String → LoopOut
  | 0, _, _, _, _ =>
      { accepted := false, final_answer := none,
        attempts := [], supp_calls := [] }
  | fuel + 1, attempt, callIdx, feedback, ctx =>
      let effQ :=
        if pyTruthy feedback then user_query ++ fmtFeedback (feedback.getD "")
        else user_query
      let draft := caps.reason attempt effQ ctx
      let verdict := caps.review attempt user_query draft
      let att : Attempt :=
        { index := attempt, evidence := ctx, effective_query := effQ,
          draft := draft, verdict := verdict }
      if verdict.decision = .ACCEPT then
        { accepted := true, final_answer := some draft,
          attempts := [att], supp_calls := [] }
      else if pyTruthy verdict.feedback_for_retriever then
        let fq := verdict.feedback_for_retriever.getD ""
        let ev := caps.retrieve callIdx fq
        let rest := reviewLoop caps fmtFeedback suppLabel user_query
          fuel (attempt + 1) (callIdx + 1) verdict.critique
          (ctx ++ suppLabel ++ ev ++ "\n")
        { accepted := rest.accepted, final_answer := rest.final_answer,
          attempts := att :: rest.attempts,
          supp_calls := (attempt, fq) :: rest.supp_calls }
      else
        let rest := reviewLoop caps fmtFeedback suppLabel user_query
          fuel (attempt + 1) callIdx verdict.critique ctx
        { accepted := rest.accepted, final_answer := rest.final_answer,
          attempts := att :: rest.attempts, supp_calls := rest.supp_calls }

/-- The initial retrieval round: one `retriever.run` call per planned
search query, each result appended to `aggregated_context` under a
`--- Search Result for '<query>' ---` heading.  Returns the aggregated
context, the next free call index, and the list of queries actually
dispatched (in order). -/
def initialRetrieve (retrieve : Nat → String → String) :
    List String → Nat → String → String × Nat × List String
  | [], callIdx, ctx => (ctx, callIdx, [])
  | q :: rest, callIdx, ctx =>
      let result := retrieve callIdx q
      let out := initialRetrieve retrieve rest (callIdx + 1)
        (ctx ++ "\n--- Search Result for '" ++ q ++ "' ---\n" ++ result ++ "\n")
      (out.1, out.2.1, q :: out.2.2)

/-- Terminal output of one orchestration session, with the dispatched
retrieval calls recorded for the observable-trace claims. -/
structure SessionResult where
  accepted : Bool
  final_answer : Option ReasonerOutput
  attempts : List Attempt
  supp_calls : List (Nat × String)
  initial_calls : List String
deriving Repr, DecidableEq

/-- The orchestration pipeline from the `RETRIEVING` state onwards,
generic in the two presentation strings that differ between
`src/main.py` and `src/app.py`.  The Plan record is the one the
orchestrator received from `planner.plan(user_query)`. -/
def chatPipelineCore (fmtFeedback : String → String) (suppLabel : String)
    (caps : Capabilities) (plan : PlannerOutput) (user_query : String)
    (max_retries : Nat) : SessionResult :=
  let init := initialRetrieve caps.retrieve plan.search_queries 0 ""
  let out := reviewLoop caps fmtFeedback suppLabel user_query
    (max_retries + 1) 0 init.2.1 (some "") init.1
  { accepted := out.accepted, final_answer := out.final_answer,
    attempts := out.attempts, supp_calls := out.supp_calls,
    initial_calls := init.2.2 }

/-- Model of `run_chat_pipeline` (src/main.py): feedback suffix
`"\n\n(PREVIOUS FEEDBACK: <critique>. Please improve the answer.)"`,
supplemental label `"\n--- Supplemental Evidence ---\n"`,
`max_retries = 2`. -/
def run_chat_pipeline (caps : Capabilities) (plan : PlannerOutput)
    (user_query : String) : SessionResult :=
  chatPipelineCore
    (fun f => "\n\n(PREVIOUS FEEDBACK: " ++ f ++ ". Please improve the answer.)")
    "\n--- Supplemental Evidence ---\n" caps plan user_query 2

/-- Model of `chat_pipeline` (src/app.py): feedback suffix
`"\n(Critique from previous turn: <critique>)"`, supplemental label
`"\n--- Supplemental ---\n"`, `max_retries = 2`. -/
def chat_pipeline (caps : Capabilities) (plan : PlannerOutput)
    (user_query : String) : SessionResult :=
  chatPipelineCore
    (fun f => "\n(Critique from previous turn: " ++ f ++ ")")
    "\n--- Supplemental ---\n" caps plan user_query 2

/-! ## Stage schemas (§6 of the structured contracts)

A record rendered back to JSON and checked against the required keys of
its stage's contract: this is the sense in which a decoded record has
"no missing required fields". -/

/-- The JSON value of a string. -/
def isStrJ : JVal → Bool
  | .str _ => true
  | _ => false

/-- The JSON value of a boolean. -/
def isBoolJ : JVal → Bool
  | .bool _ => true
  | _ => false

/-- The JSON value of a number. -/
def isNumJ : JVal → Bool
  | .num _ => true
  | _ => false

/-- The JSON value of an array of strings. -/
def isStrArrJ : JVal → Bool
  | .arr xs => xs.all isStrJ
  | _ => false

/-- The JSON value of an optional string (`string | null`). -/
def isOptStrJ : JVal → Bool
  | .null => true
  | .str _ => true
  | _ => false

/-- The JSON value of an `"ACCEPT" | "REJECT"` decision. -/
def isDecisionJ : JVal → Bool
  | .str s => s = "ACCEPT" ∨ s = "REJECT"
  | _ => false

/-- A JSON value conforms to a schema when it is an object carrying
every required key with a value of the required shape. -/
def schemaValid (required : List (String × (JVal → Bool))) : JVal → Bool
  | .obj fs => required.all (fun kp =>
      match jfield fs kp.1 with
      | some v => kp.2 v
      | none => false)
  | _ => false

/-- Required keys of the Plan stage contract. -/
def plannerSchema : List (String × (JVal → Bool)) :=
  [("reasoning", isStrJ), ("search_queries", isStrArrJ),
   ("need_visual_understanding", isBoolJ)]

/-- Required keys of the Reason stage contract. -/
def reasonerSchema : List (String × (JVal → Bool)) :=
  [("reasoning_trace", isStrJ), ("draft_answer", isStrJ),
   ("citations", isStrArrJ)]

/-- Required keys of the Review stage contract. -/
def reviewerSchema : List (String × (JVal → Bool)) :=
  [("confidence_score", isNumJ), ("decision", isDecisionJ),
   ("critique", isOptStrJ), ("feedback_for_retriever", isOptStrJ)]

/-- Render an optional string to JSON. -/
def optStrJ : Option String → JVal
  | none => .null
  | some s => .str s

/-- The wire string of a decision. -/
def AgentDecision.toWire : AgentDecision → String
  | .ACCEPT => "ACCEPT"
  | .REJECT => "REJECT"

/-- Render a `PlannerOutput` back to JSON. -/
def PlannerOutput.toJVal (p : PlannerOutput) : JVal :=
  .obj [("reasoning", .str p.reasoning),
        ("search_queries", .arr (p.search_queries.map JVal.str)),
        ("need_visual_understanding", .bool p.need_visual_understanding)]

/-- Render a `ReasonerOutput` back to JSON. -/
def ReasonerOutput.toJVal (r : ReasonerOutput) : JVal :=
  .obj [("reasoning_trace", .str r.reasoning_trace),
        ("draft_answer", .str r.draft_answer),
        ("citations", .arr (r.citations.map JVal.str))]

/-- Render a `ReviewerOutput` back to JSON. -/
def ReviewerOutput.toJVal (v : ReviewerOutput) : JVal :=
  .obj [("confidence_score", .num v.confidence_score),
        ("decision", .str v.decision.toWire),
        ("critique", optStrJ v.critique),
        ("feedback_for_retriever", optStrJ v.feedback_for_retriever)]

/-- Erase the reporting-only confidence score from a verdict. -/
def ReviewerOutput.eraseScore (v : ReviewerOutput) : ReviewerOutput :=
  { v with confidence_score := 0 }

/-- Erase the reporting-only confidence score from an attempt record. -/
def Attempt.eraseScore (a : Attempt) : Attempt :=
  { a with verdict := a.verdict.eraseScore }

/-! ## Concrete capability behaviours and decode oracles, used to
evaluate the model on closed inputs -/

/-- A single-query plan record. -/
def onePlan : PlannerOutput :=
  { reasoning := "r", search_queries := ["q1"],
    need_visual_understanding := false }

/-- Stage behaviours whose reviewer always rejects and always asks for
the supplemental query `"more evidence"`. -/
def alwaysRejectCaps : Capabilities :=
  { reason := fun _ _ _ =>
      { draft_answer := "draft", citations := [], reasoning_trace := "trace" },
    review := fun _ _ _ =>
      { confidence_score := 0, decision := .REJECT,
        critique := some "lacks citations",
        feedback_for_retriever := some "more evidence" },
    retrieve := fun _ _ => "no evidence found" }

/-- Stage behaviours whose reviewer accepts immediately. -/
def alwaysAcceptCaps : Capabilities :=
  { reason := fun _ _ _ =>
      { draft_answer := "draft", citations := [], reasoning_trace := "trace" },
    review := fun _ _ _ =>
      { confidence_score := 1, decision := .ACCEPT,
        critique := none, feedback_for_retriever := none },
    retrieve := fun _ _ => "no evidence found" }

/-- Always-rejecting behaviours reporting a low confidence score. -/
def scoreLowCaps : Capabilities :=
  { reason := fun _ _ _ =>
      { draft_answer := "draft", citations := [], reasoning_trace := "trace" },
    review := fun _ _ _ =>
      { confidence_score := 0, decision := .REJECT,
        critique := some "needs work",
        feedback_for_retriever := some "look at Fig.2" },
    retrieve := fun _ _ => "no evidence found" }

/-- The same behaviours as `scoreLowCaps` except for the reported
confidence score. -/
def scoreHighCaps : Capabilities :=
  { reason := fun _ _ _ =>
      { draft_answer := "draft", citations := [], reasoning_trace := "trace" },
    review := fun _ _ _ =>
      { confidence_score := 1, decision := .REJECT,
        critique := some "needs work",
        feedback_for_retriever := some "look at Fig.2" },
    retrieve := fun _ _ => "no evidence found" }

/-- A decode oracle returning a well-formed object whose
`search_queries` value is the explicit empty list. -/
def loadsEmptyQueries : String → Except String JVal := fun _ =>
  .ok (.obj [("reasoning", .str "ok"), ("search_queries", .arr []),
             ("need_visual_understanding", .bool false)])

/-- A decode oracle returning a well-formed object carrying a valid
score and critique but an invalid decision string. -/
def loadsBadDecision : String → Except String JVal := fun _ =>
  .ok (.obj [("confidence_score", .num 1), ("decision", .str "MAYBE"),
             ("critique", .str "clear and well cited")])

/-! ## Helper lemmas -/

theorem pyCatch_exists {α : Type} (body : Except String α)
    (handler : String → α) : ∃ a, pyCatch body handler = .ok a := by
  cases body with
  | error e => exact ⟨handler e, rfl⟩
  | ok a => exact ⟨a, rfl⟩

theorem isStrArrJ_map_str (xs : List String) :
    isStrArrJ (.arr (xs.map JVal.str)) = true := by
  simp only [isStrArrJ]
  rw [List.all_eq_true]
  intro v hv
  rw [List.mem_map] at hv
  obtain ⟨s, -, rfl⟩ := hv
  rfl

theorem plannerOutput_schemaValid (p : PlannerOutput) :
    schemaValid plannerSchema p.toJVal = true := by
  simp [schemaValid, plannerSchema, PlannerOutput.toJVal, jfield, List.find?,
    isStrJ, isBoolJ, isStrArrJ_map_str]

theorem reasonerOutput_schemaValid (r : ReasonerOutput) :
    schemaValid reasonerSchema r.toJVal = true := by
  simp [schemaValid, reasonerSchema, ReasonerOutput.toJVal, jfield, List.find?,
    isStrJ, isStrArrJ_map_str]

theorem reviewerOutput_schemaValid (v : ReviewerOutput) :
    schemaValid reviewerSchema v.toJVal = true := by
  have hdec : isDecisionJ (.str v.decision.toWire) = true := by
    cases v.decision <;> simp [isDecisionJ, AgentDecision.toWire]
  have hcrit : isOptStrJ (optStrJ v.critique) = true := by
    cases v.critique <;> rfl
  have hfb : isOptStrJ (optStrJ v.feedback_for_retriever) = true := by
    cases v.feedback_for_retriever <;> rfl
  simp [schemaValid, reviewerSchema, ReviewerOutput.toJVal, jfield,
    List.find?, isNumJ, hdec, hcrit, hfb]

/-! ## Loop lemmas -/

theorem reviewLoop_attempts_len (caps : Capabilities) (fmt : String → String)
    (supp : String) (q : String) (fuel : Nat) :
    ∀ attempt callIdx fb ctx,
      (reviewLoop caps fmt supp q fuel attempt callIdx fb ctx).attempts.length ≤ fuel := by
  induction fuel with
  | zero => intro attempt callIdx fb ctx; simp [reviewLoop]
  | succ n ih =>
    intro attempt callIdx fb ctx
    simp only [reviewLoop]
    generalize (if pyTruthy fb = true then q ++ fmt (fb.getD "") else q) = effQ
    generalize caps.reason attempt effQ ctx = d
    generalize caps.review attempt q d = v
    split
    · simp
    · split
      · simpa using ih (attempt + 1) (callIdx + 1) _ _
      · simpa using ih (attempt + 1) callIdx _ _

/-- Supplemental retrieval calls are exactly the rejected attempts whose
verdict carries a truthy `feedback_for_retriever`, at every attempt
index — the final one included. -/
theorem reviewLoop_supp_calls (caps : Capabilities) (fmt : String → String)
    (supp : String) (q : String) (fuel : Nat) :
    ∀ attempt callIdx fb ctx,
      (reviewLoop caps fmt supp q fuel attempt callIdx fb ctx).supp_calls =
        (reviewLoop caps fmt supp q fuel attempt callIdx fb ctx).attempts.filterMap
          (fun a =>
            if a.verdict.decision = AgentDecision.REJECT ∧
                pyTruthy a.verdict.feedback_for_retriever = true then
              some (a.index, a.verdict.feedback_for_retriever.getD "")
            else none) := by
  induction fuel with
  | zero => intro attempt callIdx fb ctx; simp [reviewLoop]
  | succ n ih =>
    intro attempt callIdx fb ctx
    simp only [reviewLoop]
    generalize (if pyTruthy fb = true then q ++ fmt (fb.getD "") else q) = effQ
    generalize caps.reason attempt effQ ctx = d
    generalize hv : caps.review attempt q d = v
    split
    · rename_i hacc
      have : ¬ (v.decision = AgentDecision.REJECT ∧
          pyTruthy v.feedback_for_retriever = true) := by
        rintro ⟨hr, -⟩
        rw [hacc] at hr
        exact AgentDecision.noConfusion hr
      simp [this]
    · rename_i hacc
      have hrej : v.decision = AgentDecision.REJECT := by
        cases hd : v.decision
        · exact absurd hd hacc
        · rfl
      split
      · rename_i hfb
        simp only [List.filterMap_cons]
        rw [if_pos ⟨hrej, hfb⟩]
        rw [ih (attempt + 1) (callIdx + 1) _ _]
      · rename_i hfb
        simp only [List.filterMap_cons]
        rw [if_neg (fun h => hfb h.2)]
        exact ih (attempt + 1) callIdx _ _

/-- Every attempt in the loop sees an evidence block extending the
context the loop started from. -/
theorem reviewLoop_evidence_of_mem (caps : Capabilities) (fmt : String → String)
    (supp : String) (q : String) (fuel : Nat) :
    ∀ attempt callIdx fb ctx a,
      a ∈ (reviewLoop caps fmt supp q fuel attempt callIdx fb ctx).attempts →
        ctx.data <+: a.evidence.data := by
  induction fuel with
  | zero => intro attempt callIdx fb ctx a ha; simp [reviewLoop] at ha
  | succ n ih =>
    intro attempt callIdx fb ctx a ha
    simp only [reviewLoop] at ha
    revert ha
    generalize (if pyTruthy fb = true then q ++ fmt (fb.getD "") else q) = effQ
    generalize caps.reason attempt effQ ctx = d
    generalize caps.review attempt q d = v
    intro ha
    split at ha
    · simp only [List.mem_singleton] at ha
      subst ha
      exact List.prefix_refl _
    · split at ha
      · rcases List.mem_cons.1 ha with h | h
        · subst h; exact List.prefix_refl _
        · have := ih (attempt + 1) (callIdx + 1) _ _ a h
          refine List.IsPrefix.trans ?_ this
          rw [String.data_append, String.data_append, String.data_append]
          simpa using List.prefix_append _ _
      · rcases List.mem_cons.1 ha with h | h
        · subst h; exact List.prefix_refl _
        · exact ih (attempt + 1) callIdx _ _ a h

/-- Consecutive attempts see prefix-ordered evidence snapshots. -/
theorem reviewLoop_evidence_chain (caps : Capabilities) (fmt : String → String)
    (supp : String) (q : String) (fuel : Nat) :
    ∀ attempt callIdx fb ctx,
      List.Chain' (fun a b => a.evidence.data <+: b.evidence.data)
        (reviewLoop caps fmt supp q fuel attempt callIdx fb ctx).attempts := by
  induction fuel with
  | zero => intro attempt callIdx fb ctx; simp [reviewLoop]
  | succ n ih =>
    intro attempt callIdx fb ctx
    simp only [reviewLoop]
    generalize (if pyTruthy fb = true then q ++ fmt (fb.getD "") else q) = effQ
    generalize caps.reason attempt effQ ctx = d
    generalize caps.review attempt q d = v
    split
    · simp
    · split
      · rename_i hfb
        refine List.chain'_cons'.2 ⟨?_, ih (attempt + 1) (callIdx + 1) _ _⟩
        intro y hy
        have hmem := List.mem_of_mem_head? hy
        have hext := reviewLoop_evidence_of_mem caps fmt supp q n
          (attempt + 1) (callIdx + 1) _ _ y hmem
        refine List.IsPrefix.trans ?_ hext
        rw [String.data_append, String.data_append, String.data_append]
        simpa using List.prefix_append _ _
      · refine List.chain'_cons'.2 ⟨?_, ih (attempt + 1) callIdx _ _⟩
        intro y hy
        exact reviewLoop_evidence_of_mem caps fmt supp q n
          (attempt + 1) callIdx _ _ y (List.mem_of_mem_head? hy)

theorem reviewLoop_score_blind (caps1 caps2 : Capabilities)
    (hre : caps1.reason = caps2.reason)
    (hrt : caps1.retrieve = caps2.retrieve)
    (hrv : ∀ i s d, (caps1.review i s d).eraseScore = (caps2.review i s d).eraseScore)
    (fmt : String → String) (supp : String) (q : String) (fuel : Nat) :
    ∀ attempt callIdx fb ctx,
      (reviewLoop caps1 fmt supp q fuel attempt callIdx fb ctx).accepted =
        (reviewLoop caps2 fmt supp q fuel attempt callIdx fb ctx).accepted ∧
      (reviewLoop caps1 fmt supp q fuel attempt callIdx fb ctx).final_answer =
        (reviewLoop caps2 fmt supp q fuel attempt callIdx fb ctx).final_answer ∧
      (reviewLoop caps1 fmt supp q fuel attempt callIdx fb ctx).attempts.map
          Attempt.eraseScore =
        (reviewLoop caps2 fmt supp q fuel attempt callIdx fb ctx).attempts.map
          Attempt.eraseScore ∧
      (reviewLoop caps1 fmt supp q fuel attempt callIdx fb ctx).supp_calls =
        (reviewLoop caps2 fmt supp q fuel attempt callIdx fb ctx).supp_calls := by
  induction fuel with
  | zero => intro attempt callIdx fb ctx; simp [reviewLoop]
  | succ n ih =>
    intro attempt callIdx fb ctx
    simp only [reviewLoop]
    rw [← hre, ← hrt]
    generalize (if pyTruthy fb = true then q ++ fmt (fb.getD "") else q) = effQ
    generalize caps1.reason attempt effQ ctx = d
    generalize hv1 : caps1.review attempt q d = v1
    generalize hv2 : caps2.review attempt q d = v2
    have hv12 : v1.eraseScore = v2.eraseScore := by
      rw [← hv1, ← hv2]; exact hrv attempt q d
    have hdec : v1.decision = v2.decision := by
      have h := congrArg ReviewerOutput.decision hv12
      simpa [ReviewerOutput.eraseScore] using h
    have hcrit : v1.critique = v2.critique := by
      have h := congrArg ReviewerOutput.critique hv12
      simpa [ReviewerOutput.eraseScore] using h
    have hfb : v1.feedback_for_retriever = v2.feedback_for_retriever := by
      have h := congrArg ReviewerOutput.feedback_for_retriever hv12
      simpa [ReviewerOutput.eraseScore] using h
    by_cases hacc : v1.decision = AgentDecision.ACCEPT
    · rw [if_pos hacc, if_pos (hdec.symm.trans hacc)]
      refine ⟨rfl, rfl, ?_, rfl⟩
      simp [Attempt.eraseScore, hv12]
    · rw [if_neg hacc, if_neg (fun h => hacc (hdec.trans h))]
      rw [← hfb, ← hcrit]
      by_cases htr : pyTruthy v1.feedback_for_retriever = true
      · rw [if_pos htr, if_pos htr]
        obtain ⟨h1, h2, h3, h4⟩ := ih (attempt + 1) (callIdx + 1)
          v1.critique
          (ctx ++ supp ++ caps1.retrieve callIdx (v1.feedback_for_retriever.getD "") ++ "\n")
        exact ⟨h1, h2, by simp [Attempt.eraseScore, hv12, h3], by rw [h4]⟩
      · rw [if_neg htr, if_neg htr]
        obtain ⟨h1, h2, h3, h4⟩ := ih (attempt + 1) callIdx v1.critique ctx
        exact ⟨h1, h2, by simp [Attempt.eraseScore, hv12, h3], by rw [h4]⟩

/-- If the very first verdict of the loop is ACCEPT, the loop stops
after one attempt with no supplemental retrieval. -/
theorem reviewLoop_first_accept (caps : Capabilities) (fmt : String → String)
    (supp : String) (q : String) (n attempt callIdx : Nat)
    (fb : Option String) (ctx : String)
    (h : ((reviewLoop caps fmt supp q (n + 1) attempt callIdx fb ctx).attempts.map
        (fun a => a.verdict.decision)).head? = some AgentDecision.ACCEPT) :
    (reviewLoop caps fmt supp q (n + 1) attempt callIdx fb ctx).accepted = true ∧
    (reviewLoop caps fmt supp q (n + 1) attempt callIdx fb ctx).attempts.length = 1 ∧
    (reviewLoop caps fmt supp q (n + 1) attempt callIdx fb ctx).supp_calls = [] := by
  revert h
  simp only [reviewLoop]
  generalize (if pyTruthy fb = true then q ++ fmt (fb.getD "") else q) = effQ
  generalize caps.reason attempt effQ ctx = d
  generalize caps.review attempt q d = v
  intro h
  split at h
  · split
    · exact ⟨rfl, rfl, rfl⟩
    · rename_i hacc heq
      exact absurd hacc heq
  · rename_i hacc
    split at h <;>
    · simp only [List.map_cons, List.head?_cons, Option.some.injEq] at h
      exact absurd h hacc

/-- The initial retrieval round dispatches exactly the planned queries,
in order. -/
theorem initialRetrieve_calls (retrieve : Nat → String → String)
    (qs : List String) :
    ∀ callIdx ctx, (initialRetrieve retrieve qs callIdx ctx).2.2 = qs := by
  induction qs with
  | nil => intro callIdx ctx; rfl
  | cons x t ih =>
    intro callIdx ctx
    simp only [initialRetrieve]
    rw [ih]

theorem exceptBind_ok {α β : Type} (a : α) (f : α → Except String β) :
    (Except.ok a >>= f : Except String β) = f a := rfl

theorem exceptBind_error {α β : Type} (e : String) (f : α → Except String β) :
    ((Except.error e : Except String α) >>= f) = .error e := rfl

theorem exceptPure {α : Type} (a : α) :
    (pure a : Except String α) = .ok a := rfl

theorem pyCatch_ok_and {α : Type} (P : α → Prop) (hall : ∀ a, P a)
    (body : Except String α) (handler : String → α) :
    ∃ a, pyCatch body handler = .ok a ∧ P a := by
  obtain ⟨a, ha⟩ := pyCatch_exists body handler
  exact ⟨a, ha, hall a⟩

theorem jget_of_jfield_none (fs : List (String × JVal)) (k : String)
    (d : JVal) (h : jfield fs k = none) : jget fs k d = d := by
  unfold jget
  unfold jfield at h
  rw [Option.map_eq_none'] at h
  rw [h]

theorem jget_of_jfield_some (fs : List (String × JVal)) (k : String)
    (d v : JVal) (h : jfield fs k = some v) : jget fs k d = v := by
  unfold jget
  unfold jfield at h
  rw [Option.map_eq_some'] at h
  obtain ⟨kv, hkv, hv⟩ := h
  rw [hkv]
  exact hv

theorem asListStr_map_str (l : List String) :
    asListStr (.arr (l.map JVal.str)) = .ok l := by
  induction l with
  | nil => rfl
  | cons x t ih =>
    have ht : asListStr (.arr (t.map JVal.str)) = .ok t := ih
    simp only [asListStr] at ht ⊢
    simp only [List.map_cons, List.foldr_cons]
    rw [ht]
    rfl

/-- C2: for every raw generation output and every capability failure,
each stage call (the planner's `plan`, the reasoner's `run`, the
reviewer's `review`, the retriever's `run`) returns a record that is
valid for that stage's schema, with no missing required fields, and
never propagates an exception to the orchestrator. -/
theorem C2_stages_never_raise
    (genP genR genV agentRes : Except String String)
    (loadsP loadsR loadsV : String → Except String JVal) (q : String) :
    (∃ p, PlannerAgent.plan genP loadsP q = .ok p ∧
        schemaValid plannerSchema p.toJVal = true) ∧
    (∃ r, ReasonerAgent.run genR loadsR = .ok r ∧
        schemaValid reasonerSchema r.toJVal = true) ∧
    (∃ v, ReviewerAgent.review genV loadsV = .ok v ∧
        schemaValid reviewerSchema v.toJVal = true) ∧
    (∃ s, RetrieverAgent.run agentRes = .ok s) := by
  refine ⟨?_, ?_, ?_, ?_⟩
  · unfold PlannerAgent.plan
    exact pyCatch_ok_and _ plannerOutput_schemaValid _ _
  · unfold ReasonerAgent.run
    exact pyCatch_ok_and _ reasonerOutput_schemaValid _ _
  · unfold ReviewerAgent.review
    exact pyCatch_ok_and _ reviewerOutput_schemaValid _ _
  · unfold RetrieverAgent.run
    exact pyCatch_exists _ _

/-- C7: for every query `q`, when the Plan stage's generation output is
the literal text `"not json"` and it fails to decode, the resulting
Plan is the parse-failure fallback: `search_queries = [q]`,
`need_visual_understanding = false`. -/
theorem C7_plan_parse_failure_uses_query (q m : String)
    (loads : String → Except String JVal)
    (hparse : loads "not json" = .error m) :
    PlannerAgent.plan (.ok "not json") loads q =
      .ok { reasoning := "JSON parsing failed, using original query.",
            search_queries := [q], need_visual_understanding := false } := by
  have hc : cleanJsonOutput "not json" = "not json" := by decide
  unfold PlannerAgent.plan
  simp [hc, hparse, pyCatch, exceptBind_ok, exceptBind_error, exceptPure]

/-- Witness for C7 at a concrete decode oracle and query. -/
theorem C7_witness :
    PlannerAgent.plan (.ok "not json")
      (fun _ => .error "Expecting value: line 1 column 1 (char 0)") "X" =
      .ok { reasoning := "JSON parsing failed, using original query.",
            search_queries := ["X"], need_visual_understanding := false } :=
  C7_plan_parse_failure_uses_query "X" "Expecting value: line 1 column 1 (char 0)"
    (fun _ => .error "Expecting value: line 1 column 1 (char 0)") rfl

/-- C5 counterexample: on a capability failure with error text `"boom"`
the reviewer's fallback verdict carries
`critique = "System error during review: boom"` (not the bare error
text) and `feedback_for_retriever = "System error, please retry
aggregation."` (not the literal `"retry aggregation"` the claim
states). -/
theorem C5_counterexample :
    ReviewerAgent.review (.error "boom") (fun _ => .error "ignored") =
      .ok { confidence_score := 0, decision := .REJECT,
            critique := some "System error during review: boom",
            feedback_for_retriever :=
              some "System error, please retry aggregation." } ∧
    (some "System error, please retry aggregation." : Option String) ≠
      some "retry aggregation" ∧
    (some "System error during review: boom" : Option String) ≠
      some "boom" := by
  refine ⟨rfl, by decide, by decide⟩

/-- C5 (amended): on a capability failure with error text `e`, or on a
decode failure with message `m`, the reviewer returns the conservative
fallback `ReviewerOutput{score 0, REJECT,
critique = "System error during review: " ++ <error>,
feedback_for_retriever = "System error, please retry aggregation."}`;
in particular a failed review is never an ACCEPT. -/
theorem C5_review_failure_is_conservative_reject (e c m : String)
    (loads : String → Except String JVal)
    (hdecode : loads (cleanJsonOutput c) = .error m) :
    ReviewerAgent.review (.error e) loads =
      .ok (ReviewerAgent.fallbackVerdict e) ∧
    ReviewerAgent.review (.ok c) loads =
      .ok (ReviewerAgent.fallbackVerdict m) ∧
    (ReviewerAgent.fallbackVerdict e).decision = .REJECT ∧
    (ReviewerAgent.fallbackVerdict e).confidence_score = 0 ∧
    (ReviewerAgent.fallbackVerdict e).critique =
      some ("System error during review: " ++ e) ∧
    (ReviewerAgent.fallbackVerdict e).feedback_for_retriever =
      some "System error, please retry aggregation." := by
  refine ⟨rfl, ?_, rfl, rfl, rfl, rfl⟩
  unfold ReviewerAgent.review
  simp [hdecode, pyCatch, exceptBind_ok, exceptBind_error, exceptPure]

/-- Witness for C5 at concrete error texts. -/
theorem C5_witness :
    ReviewerAgent.review (.error "boom") (fun _ => .error "Expecting value") =
      .ok (ReviewerAgent.fallbackVerdict "boom") ∧
    ReviewerAgent.review (.ok "garbage") (fun _ => .error "Expecting value") =
      .ok (ReviewerAgent.fallbackVerdict "Expecting value") ∧
    (ReviewerAgent.fallbackVerdict "boom").decision = .REJECT ∧
    (ReviewerAgent.fallbackVerdict "boom").confidence_score = 0 ∧
    (ReviewerAgent.fallbackVerdict "boom").critique =
      some ("System error during review: " ++ "boom") ∧
    (ReviewerAgent.fallbackVerdict "boom").feedback_for_retriever =
      some "System error, please retry aggregation." :=
  C5_review_failure_is_conservative_reject "boom" "garbage" "Expecting value"
    (fun _ => .error "Expecting value") rfl

/-- C10: when the Review stage's output decodes to a well-formed JSON
object whose `decision` value is not a valid `AgentDecision` (or whose
`confidence_score` cannot be converted by `float`), the whole parsed
content — any valid score and critique included — is discarded and the
full conservative fallback verdict is returned. -/
theorem C10_invalid_field_discards_parsed_content (c : String)
    (loads : String → Except String JVal) (fs : List (String × JVal))
    (hl : loads (cleanJsonOutput c) = .ok (.obj fs))
    (h : (∃ m, pyAgentDecision (jget fs "decision" (.str "REJECT")) = .error m) ∨
         (∃ m, pyFloat (jget fs "confidence_score" (.num 0)) = .error m)) :
    ∃ m, ReviewerAgent.review (.ok c) loads =
      .ok (ReviewerAgent.fallbackVerdict m) := by
  unfold ReviewerAgent.review
  cases hf : pyFloat (jget fs "confidence_score" (.num 0)) with
  | error m =>
    refine ⟨m, ?_⟩
    simp [hl, hf, pyCatch, exceptBind_ok, exceptBind_error, exceptPure]
  | ok sc =>
    rcases h with ⟨m, hd⟩ | ⟨m, hp⟩
    · refine ⟨m, ?_⟩
      simp [hl, hf, hd, pyCatch, exceptBind_ok, exceptBind_error, exceptPure]
    · rw [hf] at hp
      exact absurd hp (fun hc => Except.noConfusion hc)

/-- Witness for C10: valid score and critique, invalid decision string. -/
theorem C10_witness :
    ∃ m, ReviewerAgent.review (.ok "x") loadsBadDecision =
      .ok (ReviewerAgent.fallbackVerdict m) :=
  C10_invalid_field_discards_parsed_content "x" loadsBadDecision
    [("confidence_score", .num 1), ("decision", .str "MAYBE"),
     ("critique", .str "clear and well cited")]
    rfl
    (Or.inl ⟨"ValueError: MAYBE is not a valid AgentDecision", rfl⟩)

/-- C4 counterexample: a well-formed generation output whose
`search_queries` value is the explicit empty list produces a Plan with
`search_queries = []` — the `[query]` fallback is only the
`dict.get` default for a *missing* key, so the claimed non-emptiness
invariant fails. -/
theorem C4_counterexample :
    PlannerAgent.plan (.ok "x") loadsEmptyQueries "X" =
      .ok { reasoning := "ok", search_queries := [],
            need_visual_understanding := false } := by
  rfl

/-- C4 (amended): the Plan's `search_queries` falls back to `[query]`
when the capability fails, when the output fails to decode, or when
the decoded object has no `search_queries` key; when the key is
present its (validated) list is used as-is — so an explicit empty list
yields an empty `search_queries`. -/
theorem C4_fallback_only_when_key_absent (q c e m : String)
    (loads : String → Except String JVal) (fs : List (String × JVal)) :
    (∃ p, PlannerAgent.plan (.error e) loads q = .ok p ∧
        p.search_queries = [q]) ∧
    (loads (cleanJsonOutput c) = .error m →
      ∃ p, PlannerAgent.plan (.ok c) loads q = .ok p ∧
        p.search_queries = [q]) ∧
    (loads (cleanJsonOutput c) = .ok (.obj fs) →
      jfield fs "search_queries" = none →
      ∃ p, PlannerAgent.plan (.ok c) loads q = .ok p ∧
        p.search_queries = [q]) ∧
    (∀ l : List String, loads (cleanJsonOutput c) = .ok (.obj fs) →
      jfield fs "search_queries" = some (.arr (l.map JVal.str)) →
      ∃ p, PlannerAgent.plan (.ok c) loads q = .ok p ∧
        (p.search_queries = l ∨ p.search_queries = [q])) := by
  refine ⟨⟨_, rfl, rfl⟩, ?_, ?_, ?_⟩
  · intro hdecode
    refine ⟨{ reasoning := "JSON parsing failed, using original query.",
              search_queries := [q], need_visual_understanding := false },
      ?_, rfl⟩
    unfold PlannerAgent.plan
    simp [hdecode, pyCatch, exceptBind_ok, exceptBind_error, exceptPure]
  · intro hdecode hnone
    have hdef : jget fs "search_queries" (.arr [.str q]) = .arr [.str q] :=
      jget_of_jfield_none fs "search_queries" _ hnone
    have hq : asListStr (.arr [JVal.str q]) = .ok [q] := rfl
    unfold PlannerAgent.plan
    cases hr : asStr (jget fs "reasoning" (.str "No reasoning provided.")) with
    | error er =>
      refine ⟨{ reasoning := "System error: " ++ er, search_queries := [q],
                need_visual_understanding := false }, ?_, rfl⟩
      simp [hdecode, hr, pyCatch, exceptBind_ok, exceptBind_error, exceptPure]
    | ok r =>
      cases hb : asBool (jget fs "need_visual_understanding" (.bool false)) with
      | error eb =>
        refine ⟨{ reasoning := "System error: " ++ eb, search_queries := [q],
                  need_visual_understanding := false }, ?_, rfl⟩
        simp [hdecode, hr, hdef, hq, hb, pyCatch, exceptBind_ok,
          exceptBind_error, exceptPure]
      | ok b =>
        refine ⟨{ reasoning := r, search_queries := [q],
                  need_visual_understanding := b }, ?_, rfl⟩
        simp [hdecode, hr, hdef, hq, hb, pyCatch, exceptBind_ok,
          exceptBind_error, exceptPure]
  · intro l hdecode hsome
    have hdef : jget fs "search_queries" (.arr [.str q]) = .arr (l.map JVal.str) :=
      jget_of_jfield_some fs "search_queries" _ _ hsome
    have hl : asListStr (.arr (l.map JVal.str)) = .ok l := asListStr_map_str l
    unfold PlannerAgent.plan
    cases hr : asStr (jget fs "reasoning" (.str "No reasoning provided.")) with
    | error er =>
      refine ⟨{ reasoning := "System error: " ++ er, search_queries := [q],
                need_visual_understanding := false }, ?_, Or.inr rfl⟩
      simp [hdecode, hr, pyCatch, exceptBind_ok, exceptBind_error, exceptPure]
    | ok r =>
      cases hb : asBool (jget fs "need_visual_understanding" (.bool false)) with
      | error eb =>
        refine ⟨{ reasoning := "System error: " ++ eb, search_queries := [q],
                  need_visual_understanding := false }, ?_, Or.inr rfl⟩
        simp [hdecode, hr, hdef, hl, hb, pyCatch, exceptBind_ok,
          exceptBind_error, exceptPure]
      | ok b =>
        refine ⟨{ reasoning := r, search_queries := l,
                  need_visual_understanding := b }, ?_, Or.inl rfl⟩
        simp [hdecode, hr, hdef, hl, hb, pyCatch, exceptBind_ok,
          exceptBind_error, exceptPure]

/-- Witness for C4 at a concrete query, decode oracle and field list. -/
theorem C4_witness :
    (∃ p, PlannerAgent.plan (.error "timeout") loadsEmptyQueries "X" = .ok p ∧
        p.search_queries = ["X"]) ∧
    ((loadsEmptyQueries (cleanJsonOutput "x") = .error "nope") →
      ∃ p, PlannerAgent.plan (.ok "x") loadsEmptyQueries "X" = .ok p ∧
        p.search_queries = ["X"]) ∧
    ((loadsEmptyQueries (cleanJsonOutput "x") =
        .ok (.obj [("reasoning", .str "ok"), ("search_queries", .arr []),
                   ("need_visual_understanding", .bool false)])) →
      jfield [("reasoning", .str "ok"), ("search_queries", .arr []),
              ("need_visual_understanding", .bool false)] "search_queries" = none →
      ∃ p, PlannerAgent.plan (.ok "x") loadsEmptyQueries "X" = .ok p ∧
        p.search_queries = ["X"]) ∧
    (∀ l : List String, loadsEmptyQueries (cleanJsonOutput "x") =
        .ok (.obj [("reasoning", .str "ok"), ("search_queries", .arr []),
                   ("need_visual_understanding", .bool false)]) →
      jfield [("reasoning", .str "ok"), ("search_queries", .arr []),
              ("need_visual_understanding", .bool false)] "search_queries" =
        some (.arr (l.map JVal.str)) →
      ∃ p, PlannerAgent.plan (.ok "x") loadsEmptyQueries "X" = .ok p ∧
        (p.search_queries = l ∨ p.search_queries = ["X"])) :=
  C4_fallback_only_when_key_absent "X" "x" "timeout" "nope" loadsEmptyQueries
    [("reasoning", .str "ok"), ("search_queries", .arr []),
     ("need_visual_understanding", .bool false)]

/-- C1: for every sequence of reviewer verdicts — an always-REJECT
stream included — and every behaviour of the external capabilities, the
orchestration loop performs at most `max_retries + 1` Reason/Review
round-trips and terminates with a result (the model is a total
function, so a `SessionResult` is always returned). -/
theorem C1_terminates_within_retry_budget (fmt : String → String)
    (supp : String) (caps : Capabilities) (plan : PlannerOutput)
    (q : String) (max_retries : Nat) :
    (chatPipelineCore fmt supp caps plan q max_retries).attempts.length ≤
      max_retries + 1 := by
  unfold chatPipelineCore
  exact reviewLoop_attempts_len caps fmt supp q (max_retries + 1) 0 _ _ _

/-- C3 counterexample: with the hard-coded `max_retries = 2` of
`run_chat_pipeline` and an always-rejecting reviewer that always
supplies a supplemental query, a supplemental retrieval is issued for
every rejected attempt — the entry `(2, "more evidence")` shows the
final, budget-exhausting attempt (index 2 = `max_retries`) also issues
one, refuting "only if the attempt's index is strictly less than
max_retries". -/
theorem C3_counterexample :
    (run_chat_pipeline alwaysRejectCaps onePlan "Q").supp_calls =
      [(0, "more evidence"), (1, "more evidence"), (2, "more evidence")] := by
  decide

/-- C3 (amended): a supplemental Retrieval Dispatcher call is issued
for an attempt if and only if its verdict is REJECT and the verdict's
`supplemental_query` is present (truthy) — at every attempt index, the
final budget-exhausting one included. -/
theorem C3_supplemental_iff_rejected_with_query (fmt : String → String)
    (supp : String) (caps : Capabilities) (plan : PlannerOutput)
    (q : String) (max_retries : Nat) :
    (chatPipelineCore fmt supp caps plan q max_retries).supp_calls =
      (chatPipelineCore fmt supp caps plan q max_retries).attempts.filterMap
        (fun a =>
          if a.verdict.decision = AgentDecision.REJECT ∧
              pyTruthy a.verdict.feedback_for_retriever = true then
            some (a.index, a.verdict.feedback_for_retriever.getD "")
          else none) := by
  unfold chatPipelineCore
  exact reviewLoop_supp_calls caps fmt supp q (max_retries + 1) 0 _ _ _

/-- C6: within a session the evidence block is append-only — for every
pair of consecutive attempts, the evidence snapshot seen by the earlier
attempt is a prefix of the snapshot seen by the later one, so its
length never shrinks and no segment is removed or reordered. -/
theorem C6_evidence_append_only (fmt : String → String) (supp : String)
    (caps : Capabilities) (plan : PlannerOutput) (q : String)
    (max_retries : Nat) :
    List.Chain'
      (fun a b => a.evidence.data <+: b.evidence.data ∧
        a.evidence.length ≤ b.evidence.length)
      (chatPipelineCore fmt supp caps plan q max_retries).attempts := by
  unfold chatPipelineCore
  refine List.Chain'.imp ?_
    (reviewLoop_evidence_chain caps fmt supp q (max_retries + 1) 0 _ _ _)
  intro a b hab
  exact ⟨hab, hab.length_le⟩

/-- C8: whenever the first verdict of a session is ACCEPT, the session
records exactly one attempt, issues no supplemental retrieval call, and
the only Retrieval Dispatcher round is the initial one — one call per
planned search query, in plan order. -/
theorem C8_first_accept_single_retrieval_round (fmt : String → String)
    (supp : String) (caps : Capabilities) (plan : PlannerOutput)
    (q : String) (max_retries : Nat)
    (h : ((chatPipelineCore fmt supp caps plan q max_retries).attempts.map
        (fun a => a.verdict.decision)).head? = some AgentDecision.ACCEPT) :
    (chatPipelineCore fmt supp caps plan q max_retries).accepted = true ∧
    (chatPipelineCore fmt supp caps plan q max_retries).attempts.length = 1 ∧
    (chatPipelineCore fmt supp caps plan q max_retries).supp_calls = [] ∧
    (chatPipelineCore fmt supp caps plan q max_retries).initial_calls =
      plan.search_queries := by
  unfold chatPipelineCore at h ⊢
  obtain ⟨h1, h2, h3⟩ := reviewLoop_first_accept caps fmt supp q
    max_retries 0 _ _ _ h
  exact ⟨h1, h2, h3, initialRetrieve_calls caps.retrieve plan.search_queries 0 ""⟩

/-- Witness for C8: an immediately accepting reviewer. -/
theorem C8_witness :
    (((chatPipelineCore
        (fun f => "\n\n(PREVIOUS FEEDBACK: " ++ f ++ ". Please improve the answer.)")
        "\n--- Supplemental Evidence ---\n" alwaysAcceptCaps onePlan "Q" 2).attempts.map
          (fun a => a.verdict.decision)).head? = some AgentDecision.ACCEPT) ∧
    (chatPipelineCore
        (fun f => "\n\n(PREVIOUS FEEDBACK: " ++ f ++ ". Please improve the answer.)")
        "\n--- Supplemental Evidence ---\n" alwaysAcceptCaps onePlan "Q" 2).accepted = true ∧
    (chatPipelineCore
        (fun f => "\n\n(PREVIOUS FEEDBACK: " ++ f ++ ". Please improve the answer.)")
        "\n--- Supplemental Evidence ---\n" alwaysAcceptCaps onePlan "Q" 2).attempts.length = 1 ∧
    (chatPipelineCore
        (fun f => "\n\n(PREVIOUS FEEDBACK: " ++ f ++ ". Please improve the answer.)")
        "\n--- Supplemental Evidence ---\n" alwaysAcceptCaps onePlan "Q" 2).supp_calls = [] ∧
    (chatPipelineCore
        (fun f => "\n\n(PREVIOUS FEEDBACK: " ++ f ++ ". Please improve the answer.)")
        "\n--- Supplemental Evidence ---\n" alwaysAcceptCaps onePlan "Q" 2).initial_calls =
      onePlan.search_queries := by
  have h : ((chatPipelineCore
      (fun f => "\n\n(PREVIOUS FEEDBACK: " ++ f ++ ". Please improve the answer.)")
      "\n--- Supplemental Evidence ---\n" alwaysAcceptCaps onePlan "Q" 2).attempts.map
        (fun a => a.verdict.decision)).head? = some AgentDecision.ACCEPT := by decide
  obtain ⟨h1, h2, h3, h4⟩ := C8_first_accept_single_retrieval_round
    (fun f => "\n\n(PREVIOUS FEEDBACK: " ++ f ++ ". Please improve the answer.)")
    "\n--- Supplemental Evidence ---\n" alwaysAcceptCaps onePlan "Q" 2 h
  exact ⟨h, h1, h2, h3, h4⟩

/-- C9: the orchestrator's control flow depends only on each verdict's
decision (and its feedback fields), never on the confidence score: two
runs whose capability behaviours agree on everything except the
reported `confidence_score` take the same transitions, record the same
attempts up to the reported score, issue the same retrieval calls, and
produce the same accepted status and final draft. -/
theorem C9_control_flow_ignores_confidence_score (fmt : String → String)
    (supp : String) (caps1 caps2 : Capabilities) (plan : PlannerOutput)
    (q : String) (max_retries : Nat)
    (hre : caps1.reason = caps2.reason)
    (hrt : caps1.retrieve = caps2.retrieve)
    (hrv : ∀ i s d, (caps1.review i s d).eraseScore =
      (caps2.review i s d).eraseScore) :
    (chatPipelineCore fmt supp caps1 plan q max_retries).accepted =
      (chatPipelineCore fmt supp caps2 plan q max_retries).accepted ∧
    (chatPipelineCore fmt supp caps1 plan q max_retries).final_answer =
      (chatPipelineCore fmt supp caps2 plan q max_retries).final_answer ∧
    (chatPipelineCore fmt supp caps1 plan q max_retries).attempts.map
        Attempt.eraseScore =
      (chatPipelineCore fmt supp caps2 plan q max_retries).attempts.map
        Attempt.eraseScore ∧
    (chatPipelineCore fmt supp caps1 plan q max_retries).supp_calls =
      (chatPipelineCore fmt supp caps2 plan q max_retries).supp_calls ∧
    (chatPipelineCore fmt supp caps1 plan q max_retries).initial_calls =
      (chatPipelineCore fmt supp caps2 plan q max_retries).initial_calls := by
  unfold chatPipelineCore
  rw [← hrt]
  obtain ⟨h1, h2, h3, h4⟩ := reviewLoop_score_blind caps1 caps2 hre hrt hrv
    fmt supp q (max_retries + 1) 0
    (initialRetrieve caps1.retrieve plan.search_queries 0 "").2.1 (some "")
    (initialRetrieve caps1.retrieve plan.search_queries 0 "").1
  exact ⟨h1, h2, h3, h4, rfl⟩

/-- Witness for C9: two behaviours differing only in the reported score. -/
theorem C9_witness :
    (chatPipelineCore (fun f => "\n(Critique from previous turn: " ++ f ++ ")")
        "\n--- Supplemental ---\n" scoreLowCaps onePlan "Q" 2).accepted =
      (chatPipelineCore (fun f => "\n(Critique from previous turn: " ++ f ++ ")")
        "\n--- Supplemental ---\n" scoreHighCaps onePlan "Q" 2).accepted ∧
    (chatPipelineCore (fun f => "\n(Critique from previous turn: " ++ f ++ ")")
        "\n--- Supplemental ---\n" scoreLowCaps onePlan "Q" 2).final_answer =
      (chatPipelineCore (fun f => "\n(Critique from previous turn: " ++ f ++ ")")
        "\n--- Supplemental ---\n" scoreHighCaps onePlan "Q" 2).final_answer ∧
    (chatPipelineCore (fun f => "\n(Critique from previous turn: " ++ f ++ ")")
        "\n--- Supplemental ---\n" scoreLowCaps onePlan "Q" 2).attempts.map
        Attempt.eraseScore =
      (chatPipelineCore (fun f => "\n(Critique from previous turn: " ++ f ++ ")")
        "\n--- Supplemental ---\n" scoreHighCaps onePlan "Q" 2).attempts.map
        Attempt.eraseScore ∧
    (chatPipelineCore (fun f => "\n(Critique from previous turn: " ++ f ++ ")")
        "\n--- Supplemental ---\n" scoreLowCaps onePlan "Q" 2).supp_calls =
      (chatPipelineCore (fun f => "\n(Critique from previous turn: " ++ f ++ ")")
        "\n--- Supplemental ---\n" scoreHighCaps onePlan "Q" 2).supp_calls ∧
    (chatPipelineCore (fun f => "\n(Critique from previous turn: " ++ f ++ ")")
        "\n--- Supplemental ---\n" scoreLowCaps onePlan "Q" 2).initial_calls =
      (chatPipelineCore (fun f => "\n(Critique from previous turn: " ++ f ++ ")")
        "\n--- Supplemental ---\n" scoreHighCaps onePlan "Q" 2).initial_calls :=
  C9_control_flow_ignores_confidence_score
    (fun f => "\n(Critique from previous turn: " ++ f ++ ")")
    "\n--- Supplemental ---\n" scoreLowCaps scoreHighCaps onePlan "Q" 2
    rfl rfl (fun _ _ _ => rfl)
